import Mathlib

/-!
# Verification of the participation tracker core

Shallow embedding of the attendance state machine, the token lifecycle
manager, and the sync pipeline of the tracker web app (src/app.js and
src/dropbox-auth.js), with theorems checking the claims of the specification
against the embedded code.
-/

namespace Tracker

/-! ## Data model (src/app.js)

Attendance records are `{status, count}` objects.  The JavaScript `count`
is a number; we embed it as `Int` so that "count never becomes negative"
is a real statement rather than a consequence of the type. -/

inductive Status where
  | absent
  | present
  | late
deriving DecidableEq, Repr

structure AttendanceRecord where
  status : Status
  count : Int
deriving DecidableEq, Repr

/-- The operator-selected interaction mode (`state.mode` in src/app.js). -/
inductive Mode where
  | present
  | late
  | undo
deriving DecidableEq, Repr

/-- `const TIMER_MINUTES = 3` (src/app.js line 45). -/
def TIMER_MINUTES : Int := 3

/-- `const SAVE_DEBOUNCE_MS = 500` (src/app.js line 46). -/
def SAVE_DEBOUNCE_MS : Nat := 500

/-- The record created by `getOrCreateRecord` (src/app.js lines 228-234)
when a student has no record yet: status absent with count 0. -/
def freshRecord : AttendanceRecord := { status := .absent, count := 0 }

/-! ## Attendance state machine (src/app.js `handleCellTap`, lines 244-308) -/

/-- The `switch (effectiveMode)` body of `handleCellTap`
(src/app.js lines 263-295), acting on the tapped record. -/
def applyMode (record : AttendanceRecord) (effMode : Mode) : AttendanceRecord :=
  match effMode with
  | .present =>
    if record.status = .absent then
      { status := .present, count := 1 }
    else
      { record with count := record.count + 1 }
  | .late =>
    if record.status = .absent then
      { status := .late, count := 1 }
    else
      { record with status := .late }
  | .undo =>
    if record.count > 1 then
      { record with count := record.count - 1 }
    else if record.count = 1 then
      { status := .absent, count := 0 }
    else
      record

/-- The 3-minute grace-period override (src/app.js lines 252-261):
`elapsedMs` is `Date.now() - start_time` in milliseconds (the code divides
by 1000 and compares with `TIMER_MINUTES * 60`; dividing by 1000 is
order-preserving, so we compare milliseconds with the threshold in
milliseconds).  `start_time` is always set by the lines just above
(248-250), so the `session.start_time &&` guard is always true here. -/
def effectiveMode (mode : Mode) (record : AttendanceRecord) (elapsedMs : Int) : Mode :=
  if mode = .present ∧ record.status = .absent ∧ elapsedMs > TIMER_MINUTES * 60 * 1000 then
    .late
  else
    mode

/-- The full record transition performed by one tap in `handleCellTap`:
grace-period override, then the mode switch. -/
def handleCellTapRecord (mode : Mode) (record : AttendanceRecord)
    (elapsedMs : Int) : AttendanceRecord :=
  applyMode record (effectiveMode mode record elapsedMs)

/-- Records reachable through the tap handler from the freshly created
record `{absent, 0}`, tapping in any mode at any elapsed time. -/
inductive ReachableRecord : AttendanceRecord → Prop where
  | init : ReachableRecord freshRecord
  | tap (r : AttendanceRecord) (mode : Mode) (elapsedMs : Int) :
      ReachableRecord r → ReachableRecord (handleCellTapRecord mode r elapsedMs)

/-! ## Token lifecycle manager (src/dropbox-auth.js)

The browser storage as read by `DropboxAuth`: `localStorage` holds the
access token, refresh token and expiry (a millisecond timestamp stored as
a decimal string, round-tripped through `parseInt`, embedded as `Int`);
`sessionStorage` holds the ephemeral PKCE verifier.  `getItem` on an
absent key gives `null`, embedded as `none`. -/

structure Storage where
  verifier : Option String
  token : Option String
  refresh : Option String
  expiry : Option Int
deriving DecidableEq, Repr

/-- `isAuthenticated()` (src/dropbox-auth.js lines 42-51): false when no
token; false when an expiry is stored and `Date.now() > expiry - 300000`;
true otherwise. -/
def isAuthenticated (st : Storage) (now : Int) : Bool :=
  match st.token with
  | none => false
  | some _ =>
    match st.expiry with
    | some e => if now > e - 300000 then false else true
    | none => true

/-- `hasRefreshToken()` (src/dropbox-auth.js lines 54-56). -/
def hasRefreshToken (st : Storage) : Bool :=
  st.refresh.isSome

/-- The token-endpoint response of a successful code exchange
(`getAccessTokenFromCode(...).result`). -/
structure TokenResponse where
  access_token : String
  refresh_token : Option String
  expires_in : Option Int
deriving DecidableEq, Repr

inductive AuthError where
  | missingVerifier
  | exchangeFailed
  | refreshFailed
deriving DecidableEq, Repr

/-- JavaScript `a || b` on a number option: `0` is falsy, so
`result.expires_in || 14400` yields the default also at `0`. -/
def jsNumOr (v : Option Int) (d : Int) : Int :=
  match v with
  | none => d
  | some e => if e = 0 then d else e

/-- `_handleCallback(code)` (src/dropbox-auth.js lines 115-135).  The
network exchange is abstracted as its outcome: `some result` when
`getAccessTokenFromCode` resolves, `none` when it rejects (throws).  A
thrown exception leaves the storage exactly as it was, so the embedding
returns the outcome paired with the post-state storage. -/
def handleCallback (st : Storage) (now : Int) (exchange : Option TokenResponse) :
    Except AuthError Unit × Storage :=
  match st.verifier with
  | none => (.error .missingVerifier, st)
  | some _ =>
    match exchange with
    | none => (.error .exchangeFailed, st)
    | some result =>
      let st1 : Storage := { st with token := some result.access_token }
      let st2 : Storage :=
        match result.refresh_token with
        | some r => { st1 with refresh := some r }
        | none => st1
      let expiresIn := jsNumOr result.expires_in 14400
      let st3 : Storage := { st2 with expiry := some (now + expiresIn * 1000) }
      (.ok (), { st3 with verifier := none })

/-- `_refreshToken()` success path (src/dropbox-auth.js lines 138-150):
stores the new access token and resets the expiry to `now + 14400 * 1000`
milliseconds. -/
def refreshTokenOp (st : Storage) (now : Int) (newToken : String) : Storage :=
  { st with token := some newToken, expiry := some (now + 14400 * 1000) }

/-- `ensureFreshToken()` (src/dropbox-auth.js lines 170-174): refreshes
only when the token is not authenticated and a refresh token exists.  The
network refresh is abstracted as its outcome: `some t` when
`refreshAccessToken` resolves with new token `t`, `none` when it rejects
(the exception propagates and the storage is unchanged). -/
def ensureFreshToken (st : Storage) (now : Int) (refreshResult : Option String) :
    Except AuthError Unit × Storage :=
  if ¬ isAuthenticated st now ∧ hasRefreshToken st then
    match refreshResult with
    | none => (.error .refreshFailed, st)
    | some t => (.ok (), refreshTokenOp st now t)
  else
    (.ok (), st)

/-! ## Sessions, datasets and `saveCourseData` (src/app.js) -/

/-- A session as created in `renderGrid` (src/app.js lines 446-452) and
stored in the JSON file.  `records` is a JS object mapping student-id
strings to records; embedded as an association list (`Object.values`
is then the list of second components). -/
structure Session where
  date : String
  start_time : Option String
  active : Bool
  processed : Bool
  records : List (String × AttendanceRecord)
deriving DecidableEq, Repr

/-- A course data file: `{students, sessions}`.  Students carry no
structure the claims need, so they stay an abstract list of ids. -/
structure CourseDataset where
  students : List String
  sessions : List Session
deriving DecidableEq, Repr

/-- The predicate of the filter in `saveCourseData` (src/app.js lines
117-120): keep a session iff some record has a status other than absent or
`count > 0`. -/
def sessionHasContent (s : Session) : Bool :=
  (s.records.map Prod.snd).any fun r => decide (r.status ≠ .absent ∨ r.count > 0)

/-- The empty-session cleanup of `saveCourseData` (src/app.js lines
116-120): `data.sessions.filter(...)`. -/
def cleanEmptySessions (sessions : List Session) : List Session :=
  sessions.filter sessionHasContent

/-- `saveCourseData(course, data)` (src/app.js lines 112-131), abstracting
the two awaited network operations by their outcomes: `tokenOk` is whether
`ensureFreshToken()` resolved (if it rejects, the function throws before
the filter line runs and `data` is untouched), `uploadOk` is whether
`filesUpload` resolved.  Returns the dataset of the caller after the call (the
filter mutates `data.sessions` in place) and whether the call resolved. -/
def saveCourseData (data : CourseDataset) (tokenOk uploadOk : Bool) :
    CourseDataset × Bool :=
  if tokenOk then
    ({ data with sessions := cleanEmptySessions data.sessions }, uploadOk)
  else
    (data, false)

/-! ## Sync pipeline (src/app.js `scheduleSave`, lines 524-552)

`state.saveGeneration` is the global generation counter; at most one
timer is ever pending because `scheduleSave` begins with
`clearTimeout(state.saveTimeout)`.  The pending timer carries the
generation it captured and the dataset snapshot it will persist. -/

structure SyncState (Snap : Type) where
  saveGeneration : Nat
  pending : Option (Nat × Snap)
deriving Repr

/-- One call to `scheduleSave` (src/app.js lines 524-530): cancel any
pending timer, increment the generation, arm a fresh timer capturing the
new generation. -/
def scheduleSave {Snap : Type} (st : SyncState Snap) (snap : Snap) : SyncState Snap :=
  { saveGeneration := st.saveGeneration + 1,
    pending := some (st.saveGeneration + 1, snap) }

/-- The body of the armed `setTimeout` callback (src/app.js lines
530-535) for a timer that captured generation `g` and snapshot `snap`:
`if (generation !== state.saveGeneration) return;` — otherwise the save
runs with that snapshot.  Returns the upload performed, if any. -/
def timerCallback {Snap : Type} (g : Nat) (snap : Snap) (st : SyncState Snap) :
    Option Snap :=
  if g = st.saveGeneration then some snap else none

/-- Firing the (sole) pending timer: runs its callback and clears the
pending slot. -/
def fireTimer {Snap : Type} (st : SyncState Snap) : SyncState Snap × Option Snap :=
  match st.pending with
  | none => (st, none)
  | some (g, snap) => ({ st with pending := none }, timerCallback g snap st)

/-- A burst of `scheduleSave` calls, each arriving before the previous
timer fires (so the clearTimeout of each call cancels the previous timer). -/
def runBurst {Snap : Type} (st : SyncState Snap) (snaps : List Snap) : SyncState Snap :=
  snaps.foldl scheduleSave st


/-- Following the words of the spec (the round-trip property and section
4.5): a session whose every record is status absent with count 0 —
vacuously including a session with no records at all.  Stated as a
separate definition to compare against the code filter of
`saveCourseData`. -/
def specEmptySession (s : Session) : Bool :=
  (s.records.map Prod.snd).all fun r => decide (r.status = .absent ∧ r.count = 0)

/-! ## Theorems -/

/-- Unfolding of `effectiveMode` with the threshold as a literal. -/
theorem effectiveMode_eq (mode : Mode) (r : AttendanceRecord) (e : Int) :
    effectiveMode mode r e =
      if mode = .present ∧ r.status = .absent ∧ e > 180000 then .late else mode := by
  norm_num [effectiveMode, TIMER_MINUTES]

/-- Preservation of the record invariant by one application of the mode
switch, for any effective mode. -/
theorem applyMode_invariant (r : AttendanceRecord) (m : Mode)
    (hiff : r.status = .absent ↔ r.count = 0) (hnn : 0 ≤ r.count) :
    ((applyMode r m).status = .absent ↔ (applyMode r m).count = 0) ∧
    0 ≤ (applyMode r m).count := by
  rcases r with ⟨s, c⟩
  rcases m with _ | _ | _ <;> rcases s with _ | _ | _ <;>
    simp_all [applyMode] <;>
    first
    | omega
    | ((split_ifs <;> simp_all); omega)

/-- Claim C1: every attendance record reachable through the tap handler
from the created record (status absent, count 0), after any sequence of
taps in any mode (including the forced-late grace-period path), satisfies
the invariant that the status is absent exactly when the count is 0, and
its count is never negative. -/
theorem C1_record_invariant (r : AttendanceRecord) (h : ReachableRecord r) :
    (r.status = .absent ↔ r.count = 0) ∧ 0 ≤ r.count := by
  induction h with
  | init => simp [freshRecord]
  | tap r mode elapsedMs _ ih =>
    exact applyMode_invariant r (effectiveMode mode r elapsedMs) ih.1 ih.2

/-- Witness for C1 at a concrete reachable record: one present tap on the
fresh record. -/
theorem C1_record_invariant_witness :
    ((handleCellTapRecord .present freshRecord 0).status = .absent ↔
      (handleCellTapRecord .present freshRecord 0).count = 0) ∧
    0 ≤ (handleCellTapRecord .present freshRecord 0).count :=
  C1_record_invariant (handleCellTapRecord .present freshRecord 0)
    (ReachableRecord.tap freshRecord .present 0 ReachableRecord.init)

/-- Counterexample to claim C2 as stated: the three-tap sequence
present, present, undo on an absent record yields a count of 1, not the
count of 2 the claim asserts (two present taps reach count 2, and undo
with a count above 1 decrements it, per the table of the same claim). -/
theorem C2_counterexample :
    applyMode (applyMode (applyMode freshRecord .present) .present) .undo
        = ⟨.present, 1⟩ ∧
    applyMode (applyMode (applyMode freshRecord .present) .present) .undo
        ≠ ⟨.present, 2⟩ :=
  ⟨by decide, by decide⟩

/-- Claim C2 (amended): the transition function implements exactly the
table of section 4.4 of the spec — effective mode present on an absent
record gives (present, 1) and otherwise increments the count leaving the
status unchanged; effective mode late on an absent record gives (late, 1)
and otherwise sets the status to late leaving the count unchanged; undo
decrements the count when it exceeds 1, gives (absent, 0) when it is 1,
and is a no-op when it is 0 — and the three-tap sequences
present-present-present, present-present-undo and present-undo-undo on an
absent record yield (present, 3), (present, 1) and (absent, 0). -/
theorem C2_transition_table (r : AttendanceRecord) :
    (r.status = .absent → applyMode r .present = ⟨.present, 1⟩) ∧
    (r.status ≠ .absent → applyMode r .present = ⟨r.status, r.count + 1⟩) ∧
    (r.status = .absent → applyMode r .late = ⟨.late, 1⟩) ∧
    (r.status ≠ .absent → applyMode r .late = ⟨.late, r.count⟩) ∧
    (r.count > 1 → applyMode r .undo = ⟨r.status, r.count - 1⟩) ∧
    (r.count = 1 → applyMode r .undo = ⟨.absent, 0⟩) ∧
    (r.count = 0 → applyMode r .undo = r) ∧
    applyMode (applyMode (applyMode freshRecord .present) .present) .present
      = ⟨.present, 3⟩ ∧
    applyMode (applyMode (applyMode freshRecord .present) .present) .undo
      = ⟨.present, 1⟩ ∧
    applyMode (applyMode (applyMode freshRecord .present) .undo) .undo
      = ⟨.absent, 0⟩ := by
  rcases r with ⟨s, c⟩
  refine ⟨?_, ?_, ?_, ?_, ?_, ?_, ?_, by decide, by decide, by decide⟩ <;>
    intro h <;>
    rcases s with _ | _ | _ <;>
    simp_all [applyMode]

/-- Witness for C2 at concrete records: an undo on a record with count 5
decrements it, and an undo on a record with count 1 empties it. -/
theorem C2_transition_table_witness :
    applyMode ⟨Status.present, 5⟩ .undo = ⟨Status.present, 4⟩ ∧
    applyMode ⟨Status.late, 1⟩ .undo = ⟨Status.absent, 0⟩ := by
  refine ⟨?_, (C2_transition_table ⟨Status.late, 1⟩).2.2.2.2.2.1 (by decide)⟩
  have h := (C2_transition_table ⟨Status.present, 5⟩).2.2.2.2.1 (by decide)
  exact h.trans (by decide)

/-- Claim C6: with mode present on an absent record, elapsed time above
180 seconds forces the effective mode to late, yielding (late, 1), and
otherwise the tap yields (present, 1); concretely a tap 181 seconds after
the session start is (late, 1) and one at 179 seconds is (present, 1).
The forcing never applies to a record already present or late, nor to the
modes late and undo. -/
theorem C6_grace_period (r : AttendanceRecord) (elapsedMs : Int) :
    (r.status = .absent → elapsedMs > 180000 →
      handleCellTapRecord .present r elapsedMs = ⟨.late, 1⟩) ∧
    (r.status = .absent → elapsedMs ≤ 180000 →
      handleCellTapRecord .present r elapsedMs = ⟨.present, 1⟩) ∧
    (r.status ≠ .absent → effectiveMode .present r elapsedMs = .present) ∧
    effectiveMode .late r elapsedMs = .late ∧
    effectiveMode .undo r elapsedMs = .undo ∧
    handleCellTapRecord .present ⟨.absent, 0⟩ 181000 = ⟨.late, 1⟩ ∧
    handleCellTapRecord .present ⟨.absent, 0⟩ 179000 = ⟨.present, 1⟩ := by
  refine ⟨?_, ?_, ?_, ?_, ?_, by decide, by decide⟩
  · intro hs hgt
    rw [handleCellTapRecord, effectiveMode_eq, if_pos ⟨rfl, hs, hgt⟩]
    simp [applyMode, hs]
  · intro hs hle
    rw [handleCellTapRecord, effectiveMode_eq,
      if_neg (by rintro ⟨-, -, hgt⟩; omega)]
    simp [applyMode, hs]
  · intro hs
    rw [effectiveMode_eq, if_neg (by rintro ⟨-, hs2, -⟩; exact hs hs2)]
  · rw [effectiveMode_eq, if_neg (by rintro ⟨h, -, -⟩; cases h)]
  · rw [effectiveMode_eq, if_neg (by rintro ⟨h, -, -⟩; cases h)]

/-- Witness for C6 at a concrete record and elapsed times on either side
of the threshold. -/
theorem C6_grace_period_witness :
    handleCellTapRecord .present ⟨Status.absent, 0⟩ 180001 = ⟨Status.late, 1⟩ ∧
    handleCellTapRecord .present ⟨Status.absent, 0⟩ 180000 = ⟨Status.present, 1⟩ :=
  ⟨(C6_grace_period ⟨Status.absent, 0⟩ 180001).1 rfl (by decide),
   (C6_grace_period ⟨Status.absent, 0⟩ 180000).2.1 rfl (by decide)⟩

/-- Counterexample to claim C3 as stated: the claim asserts that
`isAuthenticated` returns false when now equals the stored expiry minus
300000 milliseconds, but the code compares with a strict greater-than, so
at that exact instant it returns true (expiry 300000, now 0). -/
theorem C3_counterexample :
    isAuthenticated ⟨none, some "t", none, some 300000⟩ (300000 - 300000) = true ∧
    ¬ isAuthenticated ⟨none, some "t", none, some 300000⟩ (300000 - 300000) = false := by
  refine ⟨by decide, ?_⟩
  intro h
  exact absurd h (by decide)

/-- Claim C3 (amended): when an access token and an expiry are stored,
`isAuthenticated` returns true exactly when now is at most the expiry
minus 300000 milliseconds; at the boundary it returns true when now
equals the expiry minus 300000 and false when now equals the expiry minus
299999. -/
theorem C3_token_buffer (st : Storage) (now e : Int)
    (htok : st.token.isSome = true) (hexp : st.expiry = some e) :
    (isAuthenticated st now = true ↔ now ≤ e - 300000) ∧
    isAuthenticated st (e - 300000) = true ∧
    isAuthenticated st (e - 299999) = false := by
  rcases st with ⟨v, tok, rf, ex⟩
  rcases tok with _ | t
  · simp at htok
  · simp only at hexp
    subst hexp
    refine ⟨?_, ?_, ?_⟩ <;>
      simp only [isAuthenticated] <;>
      split_ifs <;>
      simp_all

/-- Witness for C3 at a concrete storage and time: token stored, expiry
1000000, now 0. -/
theorem C3_token_buffer_witness :
    (isAuthenticated ⟨none, some "t", none, some 1000000⟩ 0 = true ↔
      (0 : Int) ≤ 1000000 - 300000) ∧
    isAuthenticated ⟨none, some "t", none, some 1000000⟩ (1000000 - 300000) = true ∧
    isAuthenticated ⟨none, some "t", none, some 1000000⟩ (1000000 - 299999) = false :=
  C3_token_buffer ⟨none, some "t", none, some 1000000⟩ 0 1000000 rfl rfl

/-- Claim C9: when an access token is stored but no expiry is stored,
`isAuthenticated` returns true at every time, so a token with a missing
expiry is treated as valid forever. -/
theorem C9_missing_expiry (st : Storage) (now : Int)
    (htok : st.token.isSome = true) (hexp : st.expiry = none) :
    isAuthenticated st now = true := by
  rcases st with ⟨v, tok, rf, ex⟩
  rcases tok with _ | t
  · simp at htok
  · simp only at hexp
    subst hexp
    rfl

/-- Witness for C9: a stored token with no expiry is accepted at an
arbitrarily late time. -/
theorem C9_missing_expiry_witness :
    isAuthenticated ⟨none, some "t", none, none⟩ 99999999999999 = true :=
  C9_missing_expiry ⟨none, some "t", none, none⟩ 99999999999999 rfl rfl

/-- Counterexample to claim C5 as stated: with a verifier stored and a
failing token request, the callback handler throws before reaching the
removal of the verifier, so the verifier is still stored after the failed
attempt rather than being cleared unconditionally. -/
theorem C5_counterexample :
    (handleCallback ⟨some "v", none, none, none⟩ 0 none).1
        = .error .exchangeFailed ∧
    (handleCallback ⟨some "v", none, none, none⟩ 0 none).2.verifier = some "v" :=
  ⟨rfl, rfl⟩

/-- Claim C5 (amended): if no verifier is stored, the exchange fails with
the missing-verifier error before any token request and the storage is
unchanged; if a verifier is stored and the token request fails, the
exception propagates and the storage — the verifier included — is left
unchanged, so a failed exchange can still be retried with the stale
verifier; the verifier is removed exactly when the token request
succeeds. -/
theorem C5_verifier_lifecycle (st : Storage) (now : Int)
    (exchange : Option TokenResponse) :
    (st.verifier = none →
      handleCallback st now exchange = (.error .missingVerifier, st)) ∧
    (∀ v, st.verifier = some v → exchange = none →
      handleCallback st now exchange = (.error .exchangeFailed, st)) ∧
    (∀ v tr, st.verifier = some v → exchange = some tr →
      (handleCallback st now exchange).1 = .ok () ∧
      (handleCallback st now exchange).2.verifier = none) := by
  refine ⟨?_, ?_, ?_⟩
  · intro hv
    simp [handleCallback, hv]
  · intro v hv hex
    subst hex
    simp [handleCallback, hv]
  · intro v tr hv hex
    subst hex
    rcases tr with ⟨a, rt, ei⟩
    rcases rt with _ | r <;> simp [handleCallback, hv]

/-- Witness for C5 at concrete storages: a missing verifier fails with
the missing-verifier error, and a successful exchange clears the stored
verifier. -/
theorem C5_verifier_lifecycle_witness :
    handleCallback ⟨none, none, none, none⟩ 0 none
        = (.error .missingVerifier, ⟨none, none, none, none⟩) ∧
    (handleCallback ⟨some "v", none, none, none⟩ 0
        (some ⟨"tok", some "r", some 100⟩)).1 = .ok () ∧
    (handleCallback ⟨some "v", none, none, none⟩ 0
        (some ⟨"tok", some "r", some 100⟩)).2.verifier = none :=
  ⟨(C5_verifier_lifecycle ⟨none, none, none, none⟩ 0 none).1 rfl,
   (C5_verifier_lifecycle ⟨some "v", none, none, none⟩ 0
      (some ⟨"tok", some "r", some 100⟩)).2.2 "v" ⟨"tok", some "r", some 100⟩ rfl rfl⟩

/-- Counterexample to claim C8 as stated: first, with a stored but long
expired token and no refresh token, `ensureFreshToken` completes
successfully yet the expiry it leaves behind gives the token no remaining
validity at all; second, even with a refresh token stored, at now equal
to the expiry minus exactly 300000 milliseconds the call completes
without refreshing and the strict inequality of the claim fails. -/
theorem C8_counterexample :
    ((ensureFreshToken ⟨none, some "t", none, some 0⟩ 1000000 none).1 = .ok () ∧
     (ensureFreshToken ⟨none, some "t", none, some 0⟩ 1000000 none).2.expiry
        = some 0 ∧
     ¬ ((1000000 : Int) < 0 - 300000)) ∧
    ((ensureFreshToken ⟨none, some "t", some "r", some 300000⟩ 0 none).1
        = .ok () ∧
     (ensureFreshToken ⟨none, some "t", some "r", some 300000⟩ 0 none).2.expiry
        = some 300000 ∧
     ¬ ((0 : Int) < 300000 - 300000)) := by
  exact ⟨⟨rfl, rfl, by decide⟩, ⟨rfl, rfl, by decide⟩⟩

/-- Claim C8 (amended): when a refresh token is stored and
`ensureFreshToken` completes successfully, if the resulting storage holds
an expiry then it also holds an access token and now is at most the
expiry minus 300000 milliseconds — every outbound request then carries a
token with at least the 5-minute buffer of remaining validity. -/
theorem C8_fresh_credential (st : Storage) (now : Int)
    (refreshResult : Option String) (st2 : Storage) (e : Int)
    (href : hasRefreshToken st = true)
    (hok : ensureFreshToken st now refreshResult = (.ok (), st2))
    (hexp : st2.expiry = some e) :
    st2.token.isSome = true ∧ now ≤ e - 300000 := by
  rw [ensureFreshToken.eq_def] at hok
  split_ifs at hok with hcond
  · rcases refreshResult with _ | t
    · exact absurd (congrArg Prod.fst hok) (by simp)
    · have hst2 : st2 = refreshTokenOp st now t :=
        (congrArg Prod.snd hok).symm
      subst hst2
      simp only [refreshTokenOp] at hexp ⊢
      simp only [Option.some.injEq] at hexp
      subst hexp
      exact ⟨rfl, by omega⟩
  · have hst2 : st = st2 := congrArg Prod.snd hok
    subst hst2
    have hauth : isAuthenticated st now = true := by
      by_contra hna
      exact hcond ⟨by simpa using hna, href⟩
    rcases st with ⟨v, tok, rf, ex⟩
    rcases tok with _ | t
    · simp [isAuthenticated] at hauth
    · simp only at hexp
      subst hexp
      simp only [isAuthenticated] at hauth
      constructor
      · rfl
      · split_ifs at hauth with hgt
        omega

/-- Witness for C8 at a concrete storage: no token stored, refresh token
available, refresh succeeds and installs a four-hour expiry. -/
theorem C8_fresh_credential_witness :
    (ensureFreshToken ⟨none, none, some "r", none⟩ 0 (some "t2")).2.token.isSome
        = true ∧
    (0 : Int) ≤ 14400000 - 300000 :=
  C8_fresh_credential ⟨none, none, some "r", none⟩ 0 (some "t2")
    (ensureFreshToken ⟨none, none, some "r", none⟩ 0 (some "t2")).2 14400000
    rfl rfl rfl

/-- Generation counting: a burst of scheduled saves increments the global
generation once per call. -/
theorem runBurst_saveGeneration {Snap : Type} (st : SyncState Snap) (l : List Snap) :
    (runBurst st l).saveGeneration = st.saveGeneration + l.length := by
  induction l generalizing st with
  | nil => rfl
  | cons a l ih =>
    show (runBurst (scheduleSave st a) l).saveGeneration = _
    rw [ih]
    simp [scheduleSave]
    omega

/-- Claim C4: after any burst of scheduled saves, the single pending
timer (each call cancels the previous one, so the pending slot holds at
most one timer) carries the current generation and the snapshot of the
last call; firing it uploads exactly that snapshot; and a timer callback
holding any stale generation abandons without uploading. -/
theorem C4_generation_guard {Snap : Type} (st : SyncState Snap)
    (snaps : List Snap) (snap : Snap) :
    (runBurst st (snaps ++ [snap])).saveGeneration
        = st.saveGeneration + snaps.length + 1 ∧
    (runBurst st (snaps ++ [snap])).pending
        = some ((runBurst st (snaps ++ [snap])).saveGeneration, snap) ∧
    (fireTimer (runBurst st (snaps ++ [snap]))).2 = some snap ∧
    ∀ g s, g ≠ (runBurst st (snaps ++ [snap])).saveGeneration →
      timerCallback g s (runBurst st (snaps ++ [snap])) = none := by
  have hsplit : runBurst st (snaps ++ [snap])
      = scheduleSave (runBurst st snaps) snap := by
    simp [runBurst, List.foldl_append]
  have hgen := runBurst_saveGeneration st snaps
  rw [hsplit]
  refine ⟨?_, rfl, ?_, ?_⟩
  · simp only [scheduleSave, hgen]
  · simp [fireTimer, scheduleSave, timerCallback]
  · intro g s hne
    simp only [scheduleSave] at hne ⊢
    simp [timerCallback, hne]

/-- Witness for C4 at a concrete burst: two saves scheduled back to back
from generation 0; the fired timer uploads the second snapshot, and a
callback with the stale generation 1 uploads nothing. -/
theorem C4_generation_guard_witness :
    (fireTimer (runBurst ⟨0, none⟩ ([10] ++ [20]))).2 = some 20 ∧
    timerCallback 1 (99 : Nat) (runBurst ⟨0, none⟩ ([10] ++ [20])) = none := by
  have h := C4_generation_guard (⟨0, none⟩ : SyncState Nat) [10] 20
  refine ⟨h.2.2.1, h.2.2.2 1 99 ?_⟩
  rw [h.1]
  decide

/-- Pointwise agreement of the code filter predicate with the spec
predicate, on a session whose record counts are non-negative. -/
theorem sessionHasContent_eq_not_specEmpty (s : Session)
    (hw : ∀ p ∈ s.records, 0 ≤ p.2.count) :
    sessionHasContent s = ! specEmptySession s := by
  rw [Bool.eq_iff_iff]
  simp only [sessionHasContent, specEmptySession, List.any_eq_true,
    Bool.not_eq_true', List.all_eq_false, List.mem_map, decide_eq_true_eq,
    decide_eq_false_iff_not]
  constructor
  · rintro ⟨r, ⟨⟨k, rec⟩, hmem, rfl⟩, hcase⟩
    refine ⟨rec, ⟨⟨k, rec⟩, hmem, rfl⟩, ?_⟩
    dsimp only at hcase
    rintro ⟨h1, h2⟩
    rcases hcase with h | h
    · exact h h1
    · omega
  · rintro ⟨r, ⟨⟨k, rec⟩, hmem, rfl⟩, hcase⟩
    refine ⟨rec, ⟨⟨k, rec⟩, hmem, rfl⟩, ?_⟩
    have hc : 0 ≤ rec.count := hw ⟨k, rec⟩ hmem
    by_cases h1 : rec.status = Status.absent
    · right
      have h2 : rec.count ≠ 0 := fun h => hcase ⟨h1, h⟩
      omega
    · exact Or.inl h1

/-- Claim C7: on a dataset whose record counts are non-negative (the data
model invariant), the pre-upload normalization removes exactly the
sessions in which every record is status absent with count 0 — including
sessions with no records at all — leaves every other session in place
and in order, and is idempotent. -/
theorem C7_normalization (sessions : List Session)
    (hwf : ∀ s ∈ sessions, ∀ p ∈ s.records, 0 ≤ p.2.count) :
    cleanEmptySessions sessions
        = sessions.filter (fun s => ! specEmptySession s) ∧
    cleanEmptySessions (cleanEmptySessions sessions)
        = cleanEmptySessions sessions := by
  constructor
  · exact List.filter_congr fun s hs => sessionHasContent_eq_not_specEmpty s (hwf s hs)
  · simp [cleanEmptySessions, List.filter_filter]

/-- Witness for C7 on a concrete two-session dataset: a session whose one
record is absent with count 0 is dropped, a session with a present record
is kept, and renormalizing changes nothing. -/
theorem C7_normalization_witness :
    cleanEmptySessions
        [⟨"2026-01-05", none, true, false, [("1", ⟨Status.absent, 0⟩)]⟩,
         ⟨"2026-01-06", none, true, false, [("1", ⟨Status.present, 2⟩)]⟩]
      = ([⟨"2026-01-05", none, true, false, [("1", ⟨Status.absent, 0⟩)]⟩,
          ⟨"2026-01-06", none, true, false, [("1", ⟨Status.present, 2⟩)]⟩] :
            List Session).filter (fun s => ! specEmptySession s) ∧
    cleanEmptySessions (cleanEmptySessions
        [⟨"2026-01-05", none, true, false, [("1", ⟨Status.absent, 0⟩)]⟩,
         ⟨"2026-01-06", none, true, false, [("1", ⟨Status.present, 2⟩)]⟩])
      = cleanEmptySessions
        [⟨"2026-01-05", none, true, false, [("1", ⟨Status.absent, 0⟩)]⟩,
         ⟨"2026-01-06", none, true, false, [("1", ⟨Status.present, 2⟩)]⟩] :=
  C7_normalization
    [⟨"2026-01-05", none, true, false, [("1", ⟨Status.absent, 0⟩)]⟩,
     ⟨"2026-01-06", none, true, false, [("1", ⟨Status.present, 2⟩)]⟩]
    (by decide)

/-- Claim C10: when the credential step resolves, `saveCourseData` applies
the empty-session filter to the dataset of the caller before the upload
is attempted, so the post-call dataset has the filtered sessions whatever
the upload outcome — in particular also when the upload fails — and no
field other than the sessions collection changes. -/
theorem C10_save_mutates_in_place (data : CourseDataset) (uploadOk : Bool) :
    (saveCourseData data true uploadOk).1.sessions
        = cleanEmptySessions data.sessions ∧
    (saveCourseData data true uploadOk).1.students = data.students ∧
    (saveCourseData data true uploadOk).2 = uploadOk ∧
    (saveCourseData data true false).1 = (saveCourseData data true true).1 :=
  ⟨rfl, rfl, rfl, rfl⟩

end Tracker
